import Mathlib

/-!
Shallow embedding of the tenant risk/behavior scoring engine of the
RentEase landlord tenant controller (`tenantController.js`), together
with proofs of the specification's claims about it.

Timestamps are modelled as integers (milliseconds since the epoch, as
JavaScript `Date` arithmetic produces); percentages and means are exact
rationals, with JavaScript `Math.round` modelled as `round : ℚ → ℤ`
(round half toward positive infinity, `round x = ⌊x + 1/2⌋`) and
`Math.ceil` as `Int.ceil`.
-/

namespace RentEase

/-- The `timingStatus` enum carried by a payment record. -/
inductive TimingStatus where
  | ONTIME
  | ADVANCE
  | LATE
  deriving DecidableEq, Repr

/-- The `status` enum carried by a payment record. -/
inductive PaymentStatus where
  | PAID
  | PENDING
  deriving DecidableEq, Repr

/-- A payment record as consumed by the engine: `timingStatus`,
`status`, `dueDate`, optional `paidAt` and `updatedAt` (the two dates in
epoch milliseconds). -/
structure Payment where
  timingStatus : TimingStatus
  status : PaymentStatus
  dueDate : Int
  paidAt : Option Int
  updatedAt : Int
  deriving DecidableEq, Repr

/-- A maintenance request as consumed by the engine: only its
`createdAt` timestamp (epoch milliseconds) matters to the counting
logic. -/
structure MaintenanceRequest where
  createdAt : Int
  deriving DecidableEq, Repr

/-- The LOW/MEDIUM/HIGH risk tier. -/
inductive RiskLevel where
  | LOW
  | MEDIUM
  | HIGH
  deriving DecidableEq, Repr

/-- Numeric rank of a tier for the ordering LOW < MEDIUM < HIGH. -/
def RiskLevel.rank : RiskLevel → Nat
  | .LOW => 0
  | .MEDIUM => 1
  | .HIGH => 2

/-- `payment.timingStatus === "ONTIME" || payment.timingStatus === "ADVANCE"`,
the on-time test used by every reliability computation in the controller. -/
def isOnTimePayment (p : Payment) : Bool :=
  p.timingStatus = TimingStatus.ONTIME || p.timingStatus = TimingStatus.ADVANCE

/-- `onTimePayments` of `getLandlordTenants`: the number of payments whose
timing status is ONTIME or ADVANCE. -/
def onTimePayments (ps : List Payment) : Nat :=
  (ps.filter isOnTimePayment).length

/-- `totalPayments` of `getLandlordTenants`: the length of the flattened
payment list. -/
def totalPayments (ps : List Payment) : Nat :=
  ps.length

/-- `paymentReliability` as computed in `getLandlordTenants` (and
identically in `getTenantDetails`, `getTenantStats` and
`generateComprehensiveBehaviorReport`):
`totalPayments > 0 ? (onTimePayments / totalPayments) * 100 : 0`. -/
def paymentReliability (ps : List Payment) : ℚ :=
  if totalPayments ps > 0 then
    ((onTimePayments ps : ℚ) / (totalPayments ps : ℚ)) * 100
  else 0

/-- The `paymentReliability` field of the serialized `behaviorAnalysis`
object: `Math.round(paymentReliability)`. -/
def behaviorAnalysisPaymentReliability (ps : List Payment) : Int :=
  round (paymentReliability ps)

/-- `maintenanceCount` of `getLandlordTenants`: the number of maintenance
requests fetched for the tenant. -/
def maintenanceCount (reqs : List MaintenanceRequest) : Nat :=
  reqs.length

/-- `recentMaintenanceCount`: the number of maintenance requests with
`createdAt > thirtyDaysAgo`, where `thirtyDaysAgo` is the cutoff
timestamp derived from the wall clock by the caller. -/
def recentMaintenanceCount (thirtyDaysAgo : Int) (reqs : List MaintenanceRequest) : Nat :=
  (reqs.filter (fun r => thirtyDaysAgo < r.createdAt)).length

/-- The risk tier computed inline in `getLandlordTenants`:
`riskLevel` starts `"LOW"`, is set to `"HIGH"` when
`paymentReliability < 70 || maintenanceCount > 5 || recentMaintenanceCount > 2`,
else to `"MEDIUM"` when
`paymentReliability < 85 || maintenanceCount > 2 || recentMaintenanceCount > 1`.
The spec names this rule `classifyRisk`. -/
def classifyRisk (paymentReliability : ℚ) (maintenanceCount recentMaintenanceCount : Nat) :
    RiskLevel :=
  if paymentReliability < 70 ∨ maintenanceCount > 5 ∨ recentMaintenanceCount > 2 then
    RiskLevel.HIGH
  else if paymentReliability < 85 ∨ maintenanceCount > 2 ∨ recentMaintenanceCount > 1 then
    RiskLevel.MEDIUM
  else
    RiskLevel.LOW

/-- The `classifyRisk` rule exactly as the spec's §4 words it, for
comparison against the call sites: HIGH iff
`reliability < 70 OR maintenanceTotal > 5 OR recent30d > 2`; else MEDIUM
iff `reliability < 85 OR maintenanceTotal > 2 OR recent30d > 1`; LOW
otherwise. -/
def classifyRiskSpecRule (reliability : ℚ) (maintenanceTotal recent30d : Nat) : RiskLevel :=
  if reliability < 70 ∨ maintenanceTotal > 5 ∨ recent30d > 2 then
    RiskLevel.HIGH
  else if reliability < 85 ∨ maintenanceTotal > 2 ∨ recent30d > 1 then
    RiskLevel.MEDIUM
  else
    RiskLevel.LOW

/-- The per-tenant risk tier computed inside `getTenantStats` (the
`riskLevels` map): HIGH when
`tenantPaymentReliability < 70 || tenant.maintenanceRequests.length > 5`,
else MEDIUM when
`tenantPaymentReliability < 85 || tenant.maintenanceRequests.length > 2`,
else LOW. It does not consult the recent-30-day count. -/
def getTenantStatsRiskLevel (tenantPaymentReliability : ℚ) (maintenanceRequests : Nat) :
    RiskLevel :=
  if tenantPaymentReliability < 70 ∨ maintenanceRequests > 5 then
    RiskLevel.HIGH
  else if tenantPaymentReliability < 85 ∨ maintenanceRequests > 2 then
    RiskLevel.MEDIUM
  else
    RiskLevel.LOW

/-- The `summary.overallRiskLevel` computed inside
`generateComprehensiveBehaviorReport`:
`paymentReliability < 70 || maintenanceCount > 5 ? "HIGH" :
 paymentReliability < 85 || maintenanceCount > 2 ? "MEDIUM" : "LOW"`.
It does not consult the recent-30-day count. -/
def reportOverallRiskLevel (paymentReliability : ℚ) (maintenanceCount : Nat) : RiskLevel :=
  if paymentReliability < 70 ∨ maintenanceCount > 5 then
    RiskLevel.HIGH
  else if paymentReliability < 85 ∨ maintenanceCount > 2 then
    RiskLevel.MEDIUM
  else
    RiskLevel.LOW

/-- `categorizeTenantBehavior`: EXCELLENT when
`paymentReliability >= 90 && maintenanceCount <= 1`, else GOOD when
`>= 80 && <= 2`, else AVERAGE when `>= 70 && <= 3`, else HIGH_RISK. -/
inductive TenantCategory where
  | EXCELLENT
  | GOOD
  | AVERAGE
  | HIGH_RISK
  deriving DecidableEq, Repr

/-- `categorizeTenantBehavior(paymentReliability, maintenanceCount)` from
the controller's helper section. -/
def categorizeTenantBehavior (paymentReliability : ℚ) (maintenanceCount : Nat) :
    TenantCategory :=
  if paymentReliability ≥ 90 ∧ maintenanceCount ≤ 1 then
    TenantCategory.EXCELLENT
  else if paymentReliability ≥ 80 ∧ maintenanceCount ≤ 2 then
    TenantCategory.GOOD
  else if paymentReliability ≥ 70 ∧ maintenanceCount ≤ 3 then
    TenantCategory.AVERAGE
  else
    TenantCategory.HIGH_RISK

/-- Milliseconds in one day, the divisor `1000 * 60 * 60 * 24` of the
controller's date arithmetic. -/
def msPerDay : Int := 1000 * 60 * 60 * 24

/-- `new Date(payment.paidAt || payment.updatedAt)`: the timestamp a late
payment is considered paid at — `paidAt` when present, else the record's
`updatedAt`. -/
def paidTimestamp (p : Payment) : Int :=
  match p.paidAt with
  | some t => t
  | none => p.updatedAt

/-- `Math.ceil((paidDate - dueDate) / (1000 * 60 * 60 * 24))`: the raw
delay of a payment in whole days, before flooring at zero. -/
def paymentDelayDays (p : Payment) : Int :=
  Int.ceil (((paidTimestamp p - p.dueDate : Int) : ℚ) / (msPerDay : ℚ))

/-- The LATE filter used by `calculateAveragePaymentDelay`. -/
def isLatePayment (p : Payment) : Bool :=
  p.timingStatus = TimingStatus.LATE

/-- `calculateAveragePaymentDelay(payments)`: keep only LATE payments;
return 0 when there are none; otherwise accumulate
`sum + Math.max(0, delay)` over them and return
`Math.round(totalDelay / latePayments.length)`. -/
def calculateAveragePaymentDelay (ps : List Payment) : Int :=
  let latePayments := ps.filter isLatePayment
  if latePayments.length = 0 then 0
  else
    let totalDelay := latePayments.foldl (fun sum p => sum + max 0 (paymentDelayDays p)) 0
    round ((totalDelay : ℚ) / (latePayments.length : ℚ))

/-- The result enum of `calculatePaymentTrend`. -/
inductive PaymentTrend where
  | INSUFFICIENT_DATA
  | IMPROVING
  | DECLINING
  | STABLE
  deriving DecidableEq, Repr

/-- `calculatePaymentTrend(payments)` (payments ordered most-recent
first): INSUFFICIENT_DATA when fewer than 3 payments; else compare the
on-time counts of `payments.slice(0, 3)` and `payments.slice(3, 6)`. -/
def calculatePaymentTrend (ps : List Payment) : PaymentTrend :=
  if ps.length < 3 then PaymentTrend.INSUFFICIENT_DATA
  else
    let recentPayments := ps.take 3
    let olderPayments := (ps.drop 3).take 3
    let recentOnTime := (recentPayments.filter isOnTimePayment).length
    let olderOnTime := (olderPayments.filter isOnTimePayment).length
    if recentOnTime > olderOnTime then PaymentTrend.IMPROVING
    else if recentOnTime < olderOnTime then PaymentTrend.DECLINING
    else PaymentTrend.STABLE

/-- The number of ONTIME/ADVANCE records in a window, as the claim words
it (`countP` instead of the source's `filter`-then-`length`). -/
def onTimeCountIn (ps : List Payment) : Nat :=
  ps.countP (fun p => isOnTimePayment p)

/-- `calculatePaymentTrend` as the claim words it: INSUFFICIENT_DATA iff
fewer than 3 payments; otherwise compare the on-time count among the
first 3 elements with the on-time count among elements 4 through 6 (an
empty window counting 0): IMPROVING when the recent count is greater,
DECLINING when smaller, STABLE when equal. -/
def calculatePaymentTrendSpec (ps : List Payment) : PaymentTrend :=
  if ps.length < 3 then PaymentTrend.INSUFFICIENT_DATA
  else
    let recent := onTimeCountIn (ps.take 3)
    let older := onTimeCountIn ((ps.drop 3).take 3)
    if older < recent then PaymentTrend.IMPROVING
    else if recent < older then PaymentTrend.DECLINING
    else PaymentTrend.STABLE

/-- The mock screening values drawn inside `performAutomatedScreening`
(each boolean is `true` when the check comes back clean/verified). -/
structure ScreeningData where
  creditScore : Nat
  criminalBackground : Bool
  evictionHistory : Bool
  employmentVerification : Bool
  incomeVerification : Bool
  deriving DecidableEq, Repr

/-- The `riskScore` accumulation of `performAutomatedScreening`: start at
0; `creditScore < 600` adds 30, else `creditScore < 650` adds 15; each
failing boolean check adds its fixed penalty (40/35/20/15). -/
def screeningRiskScore (d : ScreeningData) : Nat :=
  let s0 : Nat := 0
  let s1 := if d.creditScore < 600 then s0 + 30 else if d.creditScore < 650 then s0 + 15 else s0
  let s2 := if !d.criminalBackground then s1 + 40 else s1
  let s3 := if !d.evictionHistory then s2 + 35 else s2
  let s4 := if !d.employmentVerification then s3 + 20 else s3
  let s5 := if !d.incomeVerification then s4 + 15 else s4
  s5

/-- The `riskLevel` of `performAutomatedScreening`: starts LOW, becomes
HIGH when `riskScore >= 50`, else MEDIUM when `riskScore >= 25`. -/
def screeningRiskLevel (d : ScreeningData) : RiskLevel :=
  if screeningRiskScore d ≥ 50 then RiskLevel.HIGH
  else if screeningRiskScore d ≥ 25 then RiskLevel.MEDIUM
  else RiskLevel.LOW

/-- JavaScript `a || b` on a possibly-absent number: the fallback is
selected when the stored value is absent (including an undefined
optional chain or null) or falsy, i.e. exactly 0. -/
def jsOrInt (stored : Option Int) (fallback : Int) : Int :=
  match stored with
  | some v => if v = 0 then fallback else v
  | none => fallback

/-- JavaScript `a || b` on a possibly-absent string: the fallback is
selected when the stored value is absent or falsy, i.e. the empty
string. -/
def jsOrString (stored : Option String) (fallback : String) : String :=
  match stored with
  | some s => if s = "" then fallback else s
  | none => fallback

/-- The `aiRiskScore` field of the serialized `behaviorAnalysis` object,
in both `getLandlordTenants` and `getTenantDetails`:
`behaviorAnalysis?.aiRiskScore || Math.round(100 - paymentReliability)`.
`stored` is the stored analysis value when the optional chain yields a
non-null number. -/
def aiRiskScoreOutput (stored : Option Int) (paymentReliability : ℚ) : Int :=
  jsOrInt stored (round ((100 : ℚ) - paymentReliability))

/-- The `aiSummary` field of the serialized `behaviorAnalysis` object,
in both `getLandlordTenants` and `getTenantDetails`:
`behaviorAnalysis?.aiSummary || <generated summary>`, with the generated
summary passed in as `generated`. -/
def aiSummaryOutput (stored : Option String) (generated : String) : String :=
  jsOrString stored generated

/-- A concrete ONTIME payment record. -/
def ontimePaymentExample : Payment :=
  ⟨TimingStatus.ONTIME, PaymentStatus.PAID, 0, some 0, 0⟩

/-- A concrete LATE payment record, paid two days after its due date. -/
def latePaymentExample : Payment :=
  ⟨TimingStatus.LATE, PaymentStatus.PAID, 0, some (2 * msPerDay), 0⟩

/-- The spec's boundary scenario: 7 ONTIME payments followed by 3 LATE
payments, giving a reliability of exactly 70. -/
def boundaryScenarioPayments : List Payment :=
  List.replicate 7 ontimePaymentExample ++ List.replicate 3 latePaymentExample

section Theorems

/-! ## Helper lemmas shared by several theorems -/

lemma classifyRisk_eq_HIGH_iff (r : ℚ) (m c : Nat) :
    classifyRisk r m c = RiskLevel.HIGH ↔ (r < 70 ∨ 5 < m ∨ 2 < c) := by
  unfold classifyRisk
  split_ifs with h1 h2 <;> simp_all

lemma classifyRisk_eq_MEDIUM_iff (r : ℚ) (m c : Nat) :
    classifyRisk r m c = RiskLevel.MEDIUM ↔
      ¬(r < 70 ∨ 5 < m ∨ 2 < c) ∧ (r < 85 ∨ 2 < m ∨ 1 < c) := by
  unfold classifyRisk
  split_ifs with h1 h2 <;> simp_all

lemma classifyRisk_eq_LOW_iff (r : ℚ) (m c : Nat) :
    classifyRisk r m c = RiskLevel.LOW ↔
      ¬(r < 70 ∨ 5 < m ∨ 2 < c) ∧ ¬(r < 85 ∨ 2 < m ∨ 1 < c) := by
  unfold classifyRisk
  split_ifs with h1 h2 <;> simp_all

lemma classifyRisk_ne_LOW_iff (r : ℚ) (m c : Nat) :
    classifyRisk r m c ≠ RiskLevel.LOW ↔ (r < 85 ∨ 2 < m ∨ 1 < c) := by
  unfold classifyRisk
  split_ifs with h1 h2 <;> simp_all
  rcases h1 with h | h | h
  · exact Or.inl (by linarith)
  · exact Or.inr (Or.inl (by omega))
  · exact Or.inr (Or.inr (by omega))

lemma paymentReliability_boundaryScenario : paymentReliability boundaryScenarioPayments = 70 := by
  have h1 : onTimePayments boundaryScenarioPayments = 7 := by decide
  have h2 : totalPayments boundaryScenarioPayments = 10 := by decide
  rw [paymentReliability, h1, h2]
  norm_num

/-! ## Claim theorems -/

/-- C1 (counterexample): the three risk-tier call sites do NOT compute
the same function of (reliability, maintenanceTotal, recent30d). At
reliability 100, maintenanceTotal 0, recent30d 3, the tier computed in
`getLandlordTenants` (and the spec's §4 `classifyRisk` rule) is HIGH,
but the tiers computed in `getTenantStats` and
`generateComprehensiveBehaviorReport` — which never consult the
recent-30-day count — are LOW. -/
theorem riskTier_call_sites_counterexample :
    classifyRisk 100 0 3 = RiskLevel.HIGH ∧
    classifyRiskSpecRule 100 0 3 = RiskLevel.HIGH ∧
    getTenantStatsRiskLevel 100 0 = RiskLevel.LOW ∧
    reportOverallRiskLevel 100 0 = RiskLevel.LOW := by
  refine ⟨?_, ?_, ?_, ?_⟩ <;> decide

/-- C1 (amended): the tier computed inside `getLandlordTenants` is
exactly the `classifyRisk` rule of §4; the tiers computed inside
`getTenantStats` and `generateComprehensiveBehaviorReport` drop the
recent-30-day disjuncts and therefore agree with the §4 rule whenever
recent30d ≤ 1. -/
theorem riskTier_call_sites_agreement :
    (∀ (r : ℚ) (m c : Nat), classifyRisk r m c = classifyRiskSpecRule r m c) ∧
    (∀ (r : ℚ) (m c : Nat), c ≤ 1 →
      getTenantStatsRiskLevel r m = classifyRiskSpecRule r m c ∧
      reportOverallRiskLevel r m = classifyRiskSpecRule r m c) := by
  constructor
  · intro r m c
    rfl
  · intro r m c hc
    have h2 : ¬(2 < c) := by omega
    have h1 : ¬(1 < c) := by omega
    constructor <;>
      simp only [getTenantStatsRiskLevel, reportOverallRiskLevel, classifyRiskSpecRule,
        gt_iff_lt, h1, h2, or_false]

/-- C1 witness: the agreement theorem applied at reliability 90,
maintenanceTotal 1, recent30d 0. -/
theorem riskTier_call_sites_agreement_witness :
    getTenantStatsRiskLevel 90 1 = classifyRiskSpecRule 90 1 0 :=
  (riskTier_call_sites_agreement.2 90 1 0 (by decide)).1

/-- C2: `classifyRisk` evaluates its rules in order with first match
winning — HIGH iff `reliability < 70 ∨ maintenanceTotal > 5 ∨
recent30d > 2`, otherwise MEDIUM iff `reliability < 85 ∨
maintenanceTotal > 2 ∨ recent30d > 1`, otherwise LOW — and on the
boundary scenario of 7 ONTIME and 3 LATE payments (reliability exactly
70) with maintenanceTotal 1 and recent30d 0 it returns MEDIUM, not
HIGH. -/
theorem classifyRisk_first_match_order (r : ℚ) (m c : Nat) :
    (classifyRisk r m c = RiskLevel.HIGH ↔ (r < 70 ∨ 5 < m ∨ 2 < c)) ∧
    (classifyRisk r m c = RiskLevel.MEDIUM ↔
      ¬(r < 70 ∨ 5 < m ∨ 2 < c) ∧ (r < 85 ∨ 2 < m ∨ 1 < c)) ∧
    (classifyRisk r m c = RiskLevel.LOW ↔
      ¬(r < 70 ∨ 5 < m ∨ 2 < c) ∧ ¬(r < 85 ∨ 2 < m ∨ 1 < c)) ∧
    paymentReliability boundaryScenarioPayments = 70 ∧
    classifyRisk (paymentReliability boundaryScenarioPayments) 1 0 = RiskLevel.MEDIUM := by
  refine ⟨classifyRisk_eq_HIGH_iff r m c, classifyRisk_eq_MEDIUM_iff r m c,
    classifyRisk_eq_LOW_iff r m c, paymentReliability_boundaryScenario, ?_⟩
  rw [paymentReliability_boundaryScenario]
  decide

/-- C3: payment reliability is `onTime / total * 100` over all records
(ONTIME and ADVANCE both counting as on-time), is 0 on the empty list,
always lies in [0, 100], and is rounded only when placed in the output
(`Math.round` at serialization), not internally. -/
theorem paymentReliability_bounds_and_rounding :
    (∀ ps : List Payment,
      0 ≤ paymentReliability ps ∧ paymentReliability ps ≤ 100 ∧
      behaviorAnalysisPaymentReliability ps = round (paymentReliability ps) ∧
      (totalPayments ps ≠ 0 →
        paymentReliability ps = ((onTimePayments ps : ℚ) / (totalPayments ps : ℚ)) * 100)) ∧
    paymentReliability [] = 0 := by
  constructor
  · intro ps
    have hb : 0 ≤ paymentReliability ps ∧ paymentReliability ps ≤ 100 := by
      unfold paymentReliability
      split_ifs with h
      · have hk : (onTimePayments ps : ℚ) ≤ (totalPayments ps : ℚ) := by
          exact_mod_cast List.length_filter_le _ _
        have hn : (0 : ℚ) < (totalPayments ps : ℚ) := by exact_mod_cast h
        have hd : (onTimePayments ps : ℚ) / (totalPayments ps : ℚ) ≤ 1 :=
          (div_le_one hn).mpr hk
        have hd0 : (0 : ℚ) ≤ (onTimePayments ps : ℚ) / (totalPayments ps : ℚ) :=
          div_nonneg (by positivity) (le_of_lt hn)
        constructor <;> nlinarith
      · norm_num
    refine ⟨hb.1, hb.2, rfl, ?_⟩
    intro h
    unfold paymentReliability
    rw [if_pos (by omega)]
  · rfl

/-- C3 witness: the formula conjunct applied to a concrete singleton
payment list, whose total is nonzero. -/
theorem paymentReliability_bounds_and_rounding_witness :
    paymentReliability [ontimePaymentExample] =
      ((onTimePayments [ontimePaymentExample] : ℚ) /
        (totalPayments [ontimePaymentExample] : ℚ)) * 100 :=
  (paymentReliability_bounds_and_rounding.1 [ontimePaymentExample]).2.2.2 (by decide)

/-- C4: `classifyRisk` is monotone in the adverse direction — lowering
reliability and raising the maintenance counts never lowers the tier in
the ordering LOW < MEDIUM < HIGH (so HIGH never falls back to
MEDIUM/LOW and MEDIUM never falls back to LOW, in particular when a
single argument moves and the others are fixed). -/
theorem classifyRisk_monotone_adverse (r r' : ℚ) (m m' c c' : Nat)
    (hr : r' ≤ r) (hm : m ≤ m') (hc : c ≤ c') :
    RiskLevel.rank (classifyRisk r m c) ≤ RiskLevel.rank (classifyRisk r' m' c') := by
  cases h : classifyRisk r m c with
  | LOW => simp [RiskLevel.rank]
  | MEDIUM =>
      have h1 : classifyRisk r m c ≠ RiskLevel.LOW := by simp [h]
      rw [classifyRisk_ne_LOW_iff] at h1
      have h2 : classifyRisk r' m' c' ≠ RiskLevel.LOW := by
        rw [classifyRisk_ne_LOW_iff]
        rcases h1 with h' | h' | h'
        · exact Or.inl (by linarith)
        · exact Or.inr (Or.inl (by omega))
        · exact Or.inr (Or.inr (by omega))
      cases h' : classifyRisk r' m' c' <;> simp_all [RiskLevel.rank]
  | HIGH =>
      have h1 := (classifyRisk_eq_HIGH_iff r m c).mp h
      have h2 : classifyRisk r' m' c' = RiskLevel.HIGH := by
        rw [classifyRisk_eq_HIGH_iff]
        rcases h1 with h' | h' | h'
        · exact Or.inl (by linarith)
        · exact Or.inr (Or.inl (by omega))
        · exact Or.inr (Or.inr (by omega))
      simp [h2, RiskLevel.rank]

/-- C4 witness: the monotonicity theorem applied with reliability
falling from 80 to 70 and both maintenance counts rising from 0 to 1. -/
theorem classifyRisk_monotone_adverse_witness :
    RiskLevel.rank (classifyRisk 80 0 0) ≤ RiskLevel.rank (classifyRisk 70 1 1) :=
  classifyRisk_monotone_adverse 80 70 0 1 0 1 (by decide) (by decide) (by decide)

/-- C6: on empty payment and maintenance histories the engine computes
reliability 0, maintenance count 0 and recent count 0, and
`classifyRisk` then returns HIGH (0 < 70), whatever the 30-day cutoff
timestamp is. -/
theorem no_history_classified_high (thirtyDaysAgo : Int) :
    paymentReliability [] = 0 ∧
    maintenanceCount [] = 0 ∧
    recentMaintenanceCount thirtyDaysAgo [] = 0 ∧
    classifyRisk (paymentReliability []) (maintenanceCount [])
      (recentMaintenanceCount thirtyDaysAgo []) = RiskLevel.HIGH := by
  refine ⟨rfl, rfl, rfl, ?_⟩
  show classifyRisk 0 0 0 = RiskLevel.HIGH
  decide

/-- C7: `classifyRisk` and `categorizeTenantBehavior` disagree at
reliability 82 with maintenanceTotal 3 (MEDIUM vs AVERAGE), and neither
output determines the other: classifyRisk is MEDIUM at both (82, 3, 0)
and (84, 0, 0) while the category differs (AVERAGE vs GOOD), and the
category is AVERAGE at both (82, 3) and (70, 3) while classifyRisk
differs at (82, 3, 0) vs (70, 3, 3) (MEDIUM vs HIGH). -/
theorem classify_categorize_independent :
    classifyRisk 82 3 0 = RiskLevel.MEDIUM ∧
    categorizeTenantBehavior 82 3 = TenantCategory.AVERAGE ∧
    classifyRisk 84 0 0 = RiskLevel.MEDIUM ∧
    categorizeTenantBehavior 84 0 = TenantCategory.GOOD ∧
    classifyRisk 70 3 3 = RiskLevel.HIGH ∧
    categorizeTenantBehavior 70 3 = TenantCategory.AVERAGE := by
  refine ⟨?_, ?_, ?_, ?_, ?_, ?_⟩ <;> decide

lemma foldl_add_max_delay (f : Payment → Int) (l : List Payment) (a : Int) :
    l.foldl (fun sum p => sum + max 0 (f p)) a = a + (l.map (fun p => max 0 (f p))).sum := by
  induction l generalizing a with
  | nil => simp
  | cons p l ih => simp [ih, add_assoc]

/-- C5: `calculateAveragePaymentDelay` considers only LATE records,
takes for each the ceiling of the paid-minus-due difference in days
(`paidAt`, or `updatedAt` when `paidAt` is absent) floored at 0, and
returns the rounded mean of those delays; it returns 0 when no LATE
record exists and a non-negative integer otherwise. -/
theorem calculateAveragePaymentDelay_spec (ps : List Payment) :
    (ps.filter isLatePayment = [] → calculateAveragePaymentDelay ps = 0) ∧
    (ps.filter isLatePayment ≠ [] →
      calculateAveragePaymentDelay ps =
        round ((((ps.filter isLatePayment).map
            (fun p => max 0 (paymentDelayDays p))).sum : ℚ) /
          ((ps.filter isLatePayment).length : ℚ)) ∧
      0 ≤ calculateAveragePaymentDelay ps) := by
  constructor
  · intro h
    simp [calculateAveragePaymentDelay, h]
  · intro h
    have hlen : (ps.filter isLatePayment).length ≠ 0 := by
      simpa [List.length_eq_zero] using h
    have heq : calculateAveragePaymentDelay ps =
        round ((((ps.filter isLatePayment).map
            (fun p => max 0 (paymentDelayDays p))).sum : ℚ) /
          ((ps.filter isLatePayment).length : ℚ)) := by
      simp only [calculateAveragePaymentDelay, hlen, if_false, foldl_add_max_delay, zero_add]
    refine ⟨heq, ?_⟩
    rw [heq]
    have hsum : (0 : Int) ≤
        ((ps.filter isLatePayment).map (fun p => max 0 (paymentDelayDays p))).sum := by
      apply List.sum_nonneg
      intro x hx
      simp only [List.mem_map] at hx
      obtain ⟨p, _, rfl⟩ := hx
      exact le_max_left 0 _
    have hq : (0 : ℚ) ≤
        (((ps.filter isLatePayment).map (fun p => max 0 (paymentDelayDays p))).sum : ℚ) /
          ((ps.filter isLatePayment).length : ℚ) := by
      apply div_nonneg
      · exact_mod_cast hsum
      · positivity
    rw [round_eq, Int.le_floor]
    simp only [Int.cast_zero]
    linarith

/-- C5 witness: the theorem applied to a singleton LATE payment paid two
days after its due date. -/
theorem calculateAveragePaymentDelay_spec_witness :
    0 ≤ calculateAveragePaymentDelay [latePaymentExample] :=
  ((calculateAveragePaymentDelay_spec [latePaymentExample]).2 (by decide)).2

/-- C8: given the drawn mock screening values, the screening risk score
is the sum of the credit-score penalty (30 below 600, else 15 below
650, else 0) and the four fixed check penalties (40/35/20/15 when the
respective check fails), and the tier is HIGH iff the score is at least
50, MEDIUM iff it is in [25, 50), LOW iff it is below 25. -/
theorem screening_score_and_tier (d : ScreeningData) :
    screeningRiskScore d =
      (if d.creditScore < 600 then 30 else if d.creditScore < 650 then 15 else 0) +
      (if d.criminalBackground then 0 else 40) +
      (if d.evictionHistory then 0 else 35) +
      (if d.employmentVerification then 0 else 20) +
      (if d.incomeVerification then 0 else 15) ∧
    (screeningRiskLevel d = RiskLevel.HIGH ↔ 50 ≤ screeningRiskScore d) ∧
    (screeningRiskLevel d = RiskLevel.MEDIUM ↔
      25 ≤ screeningRiskScore d ∧ screeningRiskScore d < 50) ∧
    (screeningRiskLevel d = RiskLevel.LOW ↔ screeningRiskScore d < 25) := by
  obtain ⟨cs, cb, ev, em, inc⟩ := d
  constructor
  · cases cb <;> cases ev <;> cases em <;> cases inc <;>
      simp only [screeningRiskScore, Bool.not_true, Bool.not_false, if_true, if_false] <;>
      split_ifs <;> simp_all
  · unfold screeningRiskLevel
    split_ifs with h1 h2 <;> simp_all
    omega

/-- C9: `calculatePaymentTrend` coincides with the claim's description —
INSUFFICIENT_DATA exactly when fewer than 3 payments exist, otherwise
the comparison of the on-time counts of the first 3 elements and of
elements 4 through 6 — and when exactly 3 payments exist the older
window is empty, so its count is 0. -/
theorem calculatePaymentTrend_spec_props :
    (∀ ps : List Payment, calculatePaymentTrend ps = calculatePaymentTrendSpec ps) ∧
    (∀ ps : List Payment,
      calculatePaymentTrend ps = PaymentTrend.INSUFFICIENT_DATA ↔ ps.length < 3) ∧
    (∀ ps : List Payment, ps.length = 3 → onTimeCountIn ((ps.drop 3).take 3) = 0) := by
  refine ⟨?_, ?_, ?_⟩
  · intro ps
    simp only [calculatePaymentTrend, calculatePaymentTrendSpec, onTimeCountIn,
      List.countP_eq_length_filter]
  · intro ps
    unfold calculatePaymentTrend
    by_cases h1 : ps.length < 3
    · simp [h1]
    · simp only [if_neg h1]
      constructor
      · intro hEq
        exfalso
        revert hEq
        split_ifs <;> simp
      · intro h
        exact absurd h h1
  · intro ps h
    have hd : ps.drop 3 = [] := List.drop_eq_nil_of_le (by omega)
    simp [hd, onTimeCountIn]

/-- C9 witness: the empty-older-window conjunct applied to a concrete
list of exactly 3 payments. -/
theorem calculatePaymentTrend_spec_props_witness :
    onTimeCountIn (((List.replicate 3 ontimePaymentExample).drop 3).take 3) = 0 :=
  calculatePaymentTrend_spec_props.2.2 (List.replicate 3 ontimePaymentExample) (by decide)

/-- C10: the serialized `aiRiskScore` equals the stored analysis value
only when that value is present and nonzero; when it is absent, null or
exactly 0 the output is the computed fallback
`round(100 − paymentReliability)`; likewise an absent or empty-string
stored `aiSummary` is replaced by the generated summary, because the
fallback is selected by JavaScript falsiness. -/
theorem aiOutput_falsiness (stored : Option Int) (storedSummary : Option String)
    (paymentReliability : ℚ) (generatedSummary : String) :
    (∀ v : Int, stored = some v → v ≠ 0 → aiRiskScoreOutput stored paymentReliability = v) ∧
    ((stored = none ∨ stored = some 0) →
      aiRiskScoreOutput stored paymentReliability = round ((100 : ℚ) - paymentReliability)) ∧
    (∀ s : String, storedSummary = some s → s ≠ "" →
      aiSummaryOutput storedSummary generatedSummary = s) ∧
    ((storedSummary = none ∨ storedSummary = some "") →
      aiSummaryOutput storedSummary generatedSummary = generatedSummary) := by
  refine ⟨?_, ?_, ?_, ?_⟩
  · rintro v rfl hv
    simp [aiRiskScoreOutput, jsOrInt, hv]
  · rintro (rfl | rfl) <;> simp [aiRiskScoreOutput, jsOrInt]
  · rintro s rfl hs
    simp [aiSummaryOutput, jsOrString, hs]
  · rintro (rfl | rfl) <;> simp [aiSummaryOutput, jsOrString]

/-- C10 witness: the theorem applied to a stored score of 55 and a
stored non-empty summary. -/
theorem aiOutput_falsiness_witness :
    aiRiskScoreOutput (some 55) 40 = 55 ∧
    aiSummaryOutput (some ("stored")) ("generated") = ("stored") :=
  ⟨(aiOutput_falsiness (some 55) (some ("stored")) 40 ("generated")).1 55 rfl (by decide),
   (aiOutput_falsiness (some 55) (some ("stored")) 40 ("generated")).2.2.1
     ("stored") rfl (by decide)⟩

end Theorems

end RentEase
